import Mathlib

/-!
Verification of the BabyLM curriculum-objective dispatch, difficulty-scorer
factory and pseudo-perplexity estimator, as a shallow embedding of
`src/objective.py`, `src/difficulty_scorer/__init__.py` and
`src/utils/inference.py`.
-/

set_option autoImplicit false

namespace BabyLM

/-! ## Data model: objective curriculum (`src/objective.py`)

A curriculum owns a step-indexed schedule `steps : step -> unit_key` and a
unit table `units : unit_key -> ObjectiveUnit`.  Python dicts are embedded as
association lists with `List.lookup` (keys are unique in a dict, and lookup
returns the first match, so any association list with distinct keys is a
faithful image of a dict). -/

/-- One objective unit of the curriculum.  The code reads the `name`
attribute (`curriculum.units[...]. name`, objective.py line 24) and the
`"mask_probability"` entry (objective.py lines 35 and 41); the remaining
whole-word-masking knobs are never read by live code, so they are not
modelled. -/
structure ObjectiveUnit where
  name : String
  mask_probability : ℚ
  deriving Repr, DecidableEq

/-- The curriculum: a schedule `steps` from training step to unit key,
and a table `units` from unit key to `ObjectiveUnit`. -/
structure Curriculum where
  steps : List (ℕ × String)
  units : List (String × ObjectiveUnit)
  deriving Repr, DecidableEq

/-- Errors raised by `load_objective_collator`.  In Python both
`unsupportedObjective` and `unimplementedCollator` surface as
`NotImplementedError` (objective.py lines 46 and 63) but with distinct
messages; `keyError` is a Python `KeyError` from a failed dict subscript. -/
inductive ObjectiveError where
  | keyError (key : String)
  | unsupportedObjective (name : String)
  | unimplementedCollator
  deriving Repr, DecidableEq

/-- Collators returned by `load_objective_collator`.  The `"mlm"` branch
builds `DataCollatorForLanguageModeling(tokenizer=tokenizer, mlm=True,
mlm_probability=...)` (objective.py lines 31-36); the whole-word-mask
collator is never constructed because its `__init__` raises. -/
inductive Collator (Tok : Type) where
  | mlmCollator (tokenizer : Tok) (mlm : Bool) (mlm_probability : ℚ)
  deriving Repr, DecidableEq

/-- `CustomDataCollatorForWholeWordMask.__init__` (objective.py lines
59-63): unconditionally raises `NotImplementedError("This class is not
implemented yet")` before any field is set. -/
def customDataCollatorForWholeWordMask_init {Tok : Type} :
    Except ObjectiveError (Collator Tok) :=
  .error .unimplementedCollator

/-- Objective.py lines 23-27: resolve the active unit name for `step`.
If `step` is a key of `curriculum.steps`, the code evaluates
`curriculum.units[curriculum.steps[step]].name` (a `KeyError` when the
schedule value is not a key of `units`); otherwise the fallback literal
`"mlm"`. -/
def resolveActiveUnitName (c : Curriculum) (step : ℕ) :
    Except ObjectiveError String :=
  match c.steps.lookup step with
  | some unitKey =>
      match c.units.lookup unitKey with
      | some u => .ok u.name
      | none => .error (.keyError unitKey)
  | none => .ok "mlm"

/-- Objective.py lines 17-48, `load_objective_collator(curriculum,
tokenizer, step=0)`: resolve the active unit name, then dispatch.
`"mlm"` builds the language-modeling collator from
`curriculum.units["mlm"]["mask_probability"]`; `"pos"` evaluates
`curriculum.units["pos"]` (its `mask_probability` and the unit itself are
constructor arguments, so a missing `"pos"` key raises `KeyError` first)
and then calls `CustomDataCollatorForWholeWordMask.__init__`, which
raises; any other name raises
`NotImplementedError(f"Objective ... is not implemented")`. -/
def load_objective_collator {Tok : Type} (c : Curriculum) (tokenizer : Tok)
    (step : ℕ := 0) : Except ObjectiveError (Collator Tok) :=
  match resolveActiveUnitName c step with
  | .error e => .error e
  | .ok name =>
    if name = "mlm" then
      match c.units.lookup name with
      | some u => .ok (.mlmCollator tokenizer true u.mask_probability)
      | none => .error (.keyError name)
    else if name = "pos" then
      match c.units.lookup name with
      | some _ => customDataCollatorForWholeWordMask_init
      | none => .error (.keyError name)
    else
      .error (.unsupportedObjective name)

/-- A curriculum whose schedule entry at step 0 points at the unit key
`"a"`, while that unit's own `name` field is `"weird"`.  The schedule
invariant (every schedule value keys into `units`, `"mlm"` present) holds. -/
def mismatchedNameCurriculum : Curriculum :=
  { steps := [(0, "a")]
    units := [("a", { name := "weird", mask_probability := 3/20 }),
              ("mlm", { name := "mlm", mask_probability := 3/20 })] }

/-- A curriculum whose schedule entry at step 0 points at unit key `"a"`
whose unit is named `"pos"`, while `"pos"` itself is not a key of `units`.
The schedule invariant (schedule values key into `units`, `"mlm"` present)
holds. -/
def posNameNotKeyCurriculum : Curriculum :=
  { steps := [(0, "a")]
    units := [("a", { name := "pos", mask_probability := 3/20 }),
              ("mlm", { name := "mlm", mask_probability := 3/20 })] }

/-- A well-formed curriculum used by witnesses: schedule `{0 ↦ "mlm",
100 ↦ "pos"}`, units named like their keys. -/
def witnessCurriculum : Curriculum :=
  { steps := [(0, "mlm"), (100, "pos")]
    units := [("mlm", { name := "mlm", mask_probability := 3/20 }),
              ("pos", { name := "pos", mask_probability := 3/10 })] }

/-- A curriculum scheduling a unit named `"foo"` at step 7, for the
unsupported-objective witness. -/
def fooCurriculum : Curriculum :=
  { steps := [(7, "foo")]
    units := [("foo", { name := "foo", mask_probability := 1/10 }),
              ("mlm", { name := "mlm", mask_probability := 3/20 })] }

/-! ## Difficulty-scorer factory (`src/difficulty_scorer/__init__.py`)

The registry and the scorer classes (`registry.py`,
`base_difficulty_scorer.py`, `ngram_perplexity.py`) are code of this
repository that is not under `src/`; the factory `get_difficulty_scorer`
is.  A scorer instance is modelled from the spec as a record carrying the
two runtime-checkable capabilities: `usesTrainer` / `usesTokenizers` hold
exactly when `isinstance(scorer, UsesTrainer)` /
`isinstance(scorer, UsesTokenizers)` hold, i.e. when the instance has a
`trainer` / `tokenizer` attribute, and the `Option` field is that
attribute's current binding (`none` = unset). -/

/-- The slice of the `Trainer` handle the factory reads: `trainer.tokenizer`
and whether that tokenizer is a `PreTrainedTokenizerFast` (the
`isinstance` assert at line 58). -/
structure Trainer (Tok : Type) where
  tokenizer : Tok
  tokenizerIsFast : Bool
  deriving Repr, DecidableEq

/-- Modelled from the spec: a constructed difficulty-scorer instance
(the scorer classes live outside `src/`).  `usesTrainer` /
`usesTokenizers` record whether the instance declares the trainer /
tokenizer capability (has the attribute), per the runtime-checkable
protocols `UsesTrainer` and `UsesTokenizers`; `trainer` / `tokenizer` are
the attribute values, `none` when unset. -/
structure DifficultyScorer (Tok : Type) where
  usesTrainer : Bool
  trainer : Option (Trainer Tok)
  usesTokenizers : Bool
  tokenizer : Option Tok

/-- Errors raised by `get_difficulty_scorer`: a `ValueError` for a name
missing from the registry (lines 64-66), an `AssertionError` when
`trainer.tokenizer` is not a fast tokenizer (line 58). -/
inductive ScorerError where
  | unsupportedScorer (name : String)
  | assertionError
  deriving Repr, DecidableEq

/-- Difficulty_scorer/__init__.py lines 23-66, `get_difficulty_scorer`:
look the name up in `DIFFICULTY_SCORER_REGISTRY` (modelled as an
association list of constructors, a parameter since `registry.py` is not
under `src/`), construct the scorer from the kwargs, then inject the
trainer if the instance declares `UsesTrainer`, and — after asserting
`isinstance(trainer.tokenizer, PreTrainedTokenizerFast)` — the trainer's
tokenizer if it declares `UsesTokenizers`; a name not in the registry
raises `ValueError`. -/
def get_difficulty_scorer {Tok Kwargs : Type}
    (registry : List (String × (Kwargs → DifficultyScorer Tok)))
    (name : String) (kwargs : Kwargs) (trainer : Trainer Tok) :
    Except ScorerError (DifficultyScorer Tok) :=
  match registry.lookup name with
  | some ctor =>
      let scorer := ctor kwargs
      let scorer :=
        if scorer.usesTrainer then { scorer with trainer := some trainer }
        else scorer
      if scorer.usesTokenizers then
        if trainer.tokenizerIsFast then
          .ok { scorer with tokenizer := some trainer.tokenizer }
        else
          .error .assertionError
      else
        .ok scorer
  | none => .error (.unsupportedScorer name)

/-- A concrete scorer constructor for the factory witness: it declares
the tokenizer capability (the attribute exists, initially unset) and not
the trainer capability, like the spec's n-gram perplexity scorer. -/
def ngramScorerCtor : ℕ → DifficultyScorer ℕ := fun _ =>
  { usesTrainer := false, trainer := none,
    usesTokenizers := true, tokenizer := none }

/-- A one-entry registry for the factory witness. -/
def witnessRegistry : List (String × (ℕ → DifficultyScorer ℕ)) :=
  [("ngram_perplexity", ngramScorerCtor)]

/-- A trainer handle for the factory witness, holding a fast tokenizer
(embedded as the token id type ℕ). -/
def witnessTrainer : Trainer ℕ :=
  { tokenizer := 42, tokenizerIsFast := true }

/-! ## Pseudo-perplexity estimator (`src/utils/inference.py`)

Tensors of token ids are embedded as lists of rows of `ℤ`; a batch is the
pair of same-shape row lists under the keys `input_ids` and
`special_tokens_mask`.  The model forward pass and
`objective_curriculum.units["mlm"].compute_loss` are not under `src/`;
they are abstracted by a per-row token-loss function (a transformer scores
each row of the flattened batch independently). -/

/-- The ignore sentinel written into labels so the loss excludes a
position. -/
def IGNORE_INDEX : ℤ := -100

/-- Inference.py lines 53-60: variant `i` of one example's `input_ids`
row.  `repeat_ids.masked_fill(mask == 1, mask_idx)` with `mask` the
`L × L` identity writes `mask_idx` exactly on the diagonal, so row `i`
keeps the original ids except that position `i` becomes the mask token
id. -/
def variantMaskedInput (maskIdx : ℤ) (ids : List ℤ) (i : ℕ) : List ℤ :=
  (List.range ids.length).map fun j => if j = i then maskIdx else ids.getD j 0

/-- Inference.py line 63:
`labels = repeat_ids.masked_fill(masked_input != mask_idx, -100)` — the
label keeps the original id exactly where the masked input equals the
mask token id (which, besides the diagonal, also happens wherever the
original row already holds the mask token id), and is the ignore sentinel
elsewhere. -/
def variantLabelsPre (maskIdx : ℤ) (ids : List ℤ) (i : ℕ) : List ℤ :=
  (List.range ids.length).map fun j =>
    if (variantMaskedInput maskIdx ids i).getD j 0 ≠ maskIdx then IGNORE_INDEX
    else ids.getD j 0

/-- Inference.py line 69:
`labels = labels.masked_fill(special_tokens_mask == 1, -100)` — on top of
`variantLabelsPre`, every position whose `special_tokens_mask` entry is 1
is forced to the ignore sentinel. -/
def variantLabels (maskIdx : ℤ) (ids stm : List ℤ) (i : ℕ) : List ℤ :=
  (List.range ids.length).map fun j =>
    if stm.getD j 0 = 1 then IGNORE_INDEX
    else (variantLabelsPre maskIdx ids i).getD j 0

/-- Modelled from the spec: `trainer.objective_curriculum.units["mlm"]
.compute_loss(hidden_states, {}, override_lables=labels, loss_kwargs=
{"reduction": "none"})` together with the model forward pass, neither of
which is under `src/`.  Per the spec this is a per-token loss with no
reduction: for each row of the flattened batch it yields one loss value
per position, zero at positions whose label is the ignore sentinel
(excluded from the loss) and otherwise an abstract per-token
cross-entropy value `tokenLoss inputRow j label` determined by the model
outputs on that row. -/
def mlmComputeLossNone (tokenLoss : List ℤ → ℕ → ℤ → ℚ)
    (inputRow labelRow : List ℤ) : List ℚ :=
  (List.range labelRow.length).map fun j =>
    if labelRow.getD j IGNORE_INDEX = IGNORE_INDEX then 0
    else tokenLoss inputRow j (labelRow.getD j 0)

/-- Inference.py lines 53-94 for the flattened effective batch of size
`batch_size * seq_len`: for every example (paired with its
special-tokens-mask row) and every variant `i < seq_len`, the summed
(no-reduction) loss of that variant's row, `loss.sum(dim=-1)`. -/
def perVariantLossSums (tokenLoss : List ℤ → ℕ → ℤ → ℚ) (maskIdx : ℤ)
    (idsRows stmRows : List (List ℤ)) (seq_len : ℕ) : List ℚ :=
  (idsRows.zip stmRows).flatMap fun p =>
    (List.range seq_len).map fun i =>
      (mlmComputeLossNone tokenLoss (variantMaskedInput maskIdx p.1 i)
        (variantLabels maskIdx p.1 p.2 i)).sum

/-- Inference.py line 97, `loss.view(batch_size, seq_len)`: regroup a flat
list into `n` consecutive rows of `L` entries. -/
def viewRows (n L : ℕ) (xs : List ℚ) : List (List ℚ) :=
  match n with
  | 0 => []
  | m + 1 => xs.take L :: viewRows m L (xs.drop L)

/-- Inference.py lines 18-108, `compute_trainer_perplexity(batch,
tokenizer, trainer)`: assert the tokenizer has a mask token id (`none`
models the failed assert), build the `seq_len` single-position-masked
variants of every example, label them, compute the no-reduction loss over
the flattened effective batch, sum each variant's row, reshape to
`(batch_size, seq_len)`, average each example's row and exponentiate.
`batch_size = input_ids.size(0)` and `seq_len = input_ids.size(1)` (the
common row length of the tensor). -/
noncomputable def compute_trainer_perplexity
    (tokenLoss : List ℤ → ℕ → ℤ → ℚ) (mask_token_id : Option ℤ)
    (input_ids special_tokens_mask : List (List ℤ)) : Option (List ℝ) :=
  match mask_token_id with
  | none => none
  | some maskIdx =>
      let batch_size := input_ids.length
      let seq_len := (input_ids.headD []).length
      let sums :=
        perVariantLossSums tokenLoss maskIdx input_ids special_tokens_mask
          seq_len
      let mean_loss :=
        (viewRows batch_size seq_len sums).map fun row =>
          row.sum / (seq_len : ℚ)
      some (mean_loss.map fun q : ℚ => Real.exp (q : ℝ))

/-- The computable per-example mean loss the estimator realises: the mean
over the `seq_len` variants of example `ids` (with special-tokens row
`stm`) of the variant's summed no-reduction loss.  Used to state what
`compute_trainer_perplexity` returns per example. -/
def perExampleMeanLoss (tokenLoss : List ℤ → ℕ → ℤ → ℚ) (maskIdx : ℤ)
    (seq_len : ℕ) (ids stm : List ℤ) : ℚ :=
  ((List.range seq_len).map fun i =>
    (mlmComputeLossNone tokenLoss (variantMaskedInput maskIdx ids i)
      (variantLabels maskIdx ids stm i)).sum).sum / (seq_len : ℚ)

/-! ## Theorems: objective curriculum dispatch -/

/-- Claim C1, counterexample.  The claim says the active unit name
resolved by `load_objective_collator` at a scheduled step equals the
string `curriculum.steps[s]` exactly; but the code resolves
`curriculum.units[curriculum.steps[s]].name`, so on a curriculum whose
schedule points at unit key `"a"` while that unit's `name` field is
`"weird"`, step 0 resolves to `"weird"`, not to the recorded string
`"a"`. -/
theorem claim_C1_counterexample :
    resolveActiveUnitName mismatchedNameCurriculum 0 = .ok "weird" ∧
    mismatchedNameCurriculum.steps.lookup 0 = some "a" ∧
    ("weird" : String) ≠ "a" := by
  refine ⟨rfl, rfl, ?_⟩
  decide

/-- Claim C1, amended.  For every training step `s` that is a key of the
curriculum's schedule mapping, the active unit name resolved by
`load_objective_collator` equals the `name` field of the unit that the
schedule entry `curriculum.steps[s]` keys to in `curriculum.units`; in
particular it equals the recorded string `curriculum.steps[s]` exactly
whenever that unit's `name` field agrees with its key. -/
theorem claim_C1_resolved_name (c : Curriculum) (s : ℕ) (k : String)
    (u : ObjectiveUnit) (h1 : c.steps.lookup s = some k)
    (h2 : c.units.lookup k = some u) :
    resolveActiveUnitName c s = .ok u.name ∧
    (u.name = k → resolveActiveUnitName c s = .ok k) := by
  constructor
  · simp [resolveActiveUnitName, h1, h2]
  · intro hk
    simp [resolveActiveUnitName, h1, h2, hk]

/-- Claim C1, witness: on the well-formed curriculum, step 100 is
scheduled as `"pos"` and resolves to `"pos"`. -/
theorem claim_C1_witness :
    witnessCurriculum.steps.lookup 100 = some "pos" ∧
    resolveActiveUnitName witnessCurriculum 100 = .ok "pos" :=
  ⟨rfl,
   (claim_C1_resolved_name witnessCurriculum 100 "pos"
      { name := "pos", mask_probability := 3/10 } rfl rfl).2
     rfl⟩

/-- Claim C2: for every training step `s` that is not a key of the
curriculum's schedule mapping, the active unit name resolved by
`load_objective_collator` is the literal `"mlm"`. -/
theorem claim_C2_fallback_mlm (c : Curriculum) (s : ℕ)
    (h : c.steps.lookup s = none) :
    resolveActiveUnitName c s = .ok "mlm" := by
  simp [resolveActiveUnitName, h]

/-- Claim C2, witness: step 50 is not in the schedule `{0, 100}`, so it
resolves to the fallback `"mlm"`. -/
theorem claim_C2_witness :
    witnessCurriculum.steps.lookup 50 = none ∧
    resolveActiveUnitName witnessCurriculum 50 = .ok "mlm" :=
  ⟨rfl, claim_C2_fallback_mlm witnessCurriculum 50 rfl⟩

/-- Claim C6: whenever `load_objective_collator` resolves an active unit
name other than `"mlm"` and `"pos"`, it fails with the unsupported
objective error (the `NotImplementedError` of objective.py line 46),
propagated to the caller. -/
theorem claim_C6_unsupported_objective {Tok : Type} (c : Curriculum)
    (tok : Tok) (s : ℕ) (n : String)
    (h1 : resolveActiveUnitName c s = .ok n) (h2 : n ≠ "mlm")
    (h3 : n ≠ "pos") :
    load_objective_collator c tok s = .error (.unsupportedObjective n) := by
  simp [load_objective_collator, h1, h2, h3]

/-- Claim C6, witness: the curriculum scheduling unit `"foo"` at step 7
makes `load_objective_collator` fail with the unsupported-objective
error for `"foo"`. -/
theorem claim_C6_witness :
    resolveActiveUnitName fooCurriculum 7 = .ok "foo" ∧
    load_objective_collator fooCurriculum (0 : ℕ) 7 =
      .error (.unsupportedObjective "foo") :=
  ⟨rfl,
   claim_C6_unsupported_objective fooCurriculum 0 7 "foo" rfl
     (by decide) (by decide)⟩

/-- Claim C7, counterexample.  The claim says that whenever the resolved
active unit name is `"pos"` the collator construction fails with the
unimplemented-collator error; but the constructor's arguments are
evaluated first, and they subscript `curriculum.units["pos"]`, so on a
curriculum whose scheduled unit is named `"pos"` under the key `"a"`
(with no `"pos"` key in `units`) the call fails with `KeyError("pos")`
instead. -/
theorem claim_C7_counterexample :
    resolveActiveUnitName posNameNotKeyCurriculum 0 = .ok "pos" ∧
    load_objective_collator posNameNotKeyCurriculum (0 : ℕ) 0 =
      .error (.keyError "pos") ∧
    ObjectiveError.keyError "pos" ≠ .unimplementedCollator := by
  refine ⟨rfl, rfl, ?_⟩
  decide

/-- Claim C7, amended: whenever `load_objective_collator` resolves the
active unit name `"pos"` and `"pos"` is a key of `curriculum.units`,
constructing the whole-word-masking collator fails with the
unimplemented-collator error (raised by
`CustomDataCollatorForWholeWordMask.__init__` before any collator
exists, hence before any batch is processed), not a silent fallback. -/
theorem claim_C7_pos_unimplemented {Tok : Type} (c : Curriculum)
    (tok : Tok) (s : ℕ) (u : ObjectiveUnit)
    (h1 : resolveActiveUnitName c s = .ok "pos")
    (h2 : c.units.lookup "pos" = some u) :
    load_objective_collator c tok s = .error .unimplementedCollator := by
  simp [load_objective_collator, h1, h2,
    customDataCollatorForWholeWordMask_init]

/-- Claim C7, witness: on the well-formed curriculum, step 100 resolves
to `"pos"` and the collator construction fails with the
unimplemented-collator error. -/
theorem claim_C7_witness :
    load_objective_collator witnessCurriculum (0 : ℕ) 100 =
      .error .unimplementedCollator :=
  claim_C7_pos_unimplemented witnessCurriculum 0 100
    { name := "pos", mask_probability := 3/10 } rfl rfl

/-- Claim C8: whenever `load_objective_collator` resolves the active unit
name `"mlm"`, it returns the masked-language-model collator with
`mlm=True` and mask probability `curriculum.units["mlm"].mask_probability`. -/
theorem claim_C8_mlm_collator {Tok : Type} (c : Curriculum) (tok : Tok)
    (s : ℕ) (u : ObjectiveUnit)
    (h1 : resolveActiveUnitName c s = .ok "mlm")
    (h2 : c.units.lookup "mlm" = some u) :
    load_objective_collator c tok s =
      .ok (.mlmCollator tok true u.mask_probability) := by
  simp [load_objective_collator, h1, h2]

/-- Claim C8, witness: on the well-formed curriculum, step 0 resolves to
`"mlm"` and yields the language-modeling collator with the stored mask
probability 3/20. -/
theorem claim_C8_witness :
    load_objective_collator witnessCurriculum (0 : ℕ) 0 =
      .ok (.mlmCollator 0 true (3/20)) :=
  claim_C8_mlm_collator witnessCurriculum 0 0
    { name := "mlm", mask_probability := 3/20 } rfl rfl

/-- Claim C10: `load_objective_collator`'s `step` parameter defaults to 0
— calling it without an explicit step is the call at step 0, so when the
schedule has key 0 the unit it keys to is resolved, and otherwise the
`"mlm"` fallback applies. -/
theorem claim_C10_default_step {Tok : Type} (c : Curriculum) (tok : Tok) :
    load_objective_collator c tok = load_objective_collator c tok 0 ∧
    (∀ k u, c.steps.lookup 0 = some k → c.units.lookup k = some u →
      resolveActiveUnitName c 0 = .ok u.name) ∧
    (c.steps.lookup 0 = none → resolveActiveUnitName c 0 = .ok "mlm") := by
  refine ⟨rfl, ?_, ?_⟩
  · intro k u h1 h2
    simp [resolveActiveUnitName, h1, h2]
  · intro h
    simp [resolveActiveUnitName, h]

/-- Claim C10, witness: on the well-formed curriculum (schedule key 0
maps to `"mlm"`), the no-step call equals the step-0 call and step 0
resolves to the scheduled unit's name. -/
theorem claim_C10_witness :
    load_objective_collator witnessCurriculum (0 : ℕ) =
      load_objective_collator witnessCurriculum 0 0 ∧
    resolveActiveUnitName witnessCurriculum 0 = .ok "mlm" :=
  ⟨(claim_C10_default_step witnessCurriculum 0).1,
   (claim_C10_default_step witnessCurriculum 0).2.1 "mlm"
     { name := "mlm", mask_probability := 3/20 } rfl rfl⟩

/-! ## Theorems: difficulty-scorer factory -/

/-- Claim C9: for every scorer name registered in the difficulty-scorer
registry, `get_difficulty_scorer` returns the constructed scorer with its
tokenizer field set to `trainer.tokenizer` if the instance declares the
tokenizer capability, and left unset otherwise (the constructed instance
without the attribute has it unset, and the factory does not touch it);
and its trainer field set to the given trainer handle if the instance
declares the trainer capability.  The hypothesis `hfast` is the
`isinstance(trainer.tokenizer, PreTrainedTokenizerFast)` assert, which
per the code's own note never fails because the tokenizer was validated
earlier in the pipeline. -/
theorem claim_C9_scorer_injection {Tok Kwargs : Type}
    (registry : List (String × (Kwargs → DifficultyScorer Tok)))
    (name : String) (ctor : Kwargs → DifficultyScorer Tok) (kwargs : Kwargs)
    (trainer : Trainer Tok)
    (hreg : registry.lookup name = some ctor)
    (hfast : trainer.tokenizerIsFast = true)
    (hattr : (ctor kwargs).usesTokenizers = false →
      (ctor kwargs).tokenizer = none) :
    ∃ s, get_difficulty_scorer registry name kwargs trainer = .ok s ∧
      ((ctor kwargs).usesTokenizers = true →
        s.tokenizer = some trainer.tokenizer) ∧
      ((ctor kwargs).usesTokenizers = false → s.tokenizer = none) ∧
      ((ctor kwargs).usesTrainer = true → s.trainer = some trainer) := by
  cases hUT : (ctor kwargs).usesTrainer <;>
    cases hTk : (ctor kwargs).usesTokenizers
  · exact ⟨ctor kwargs,
      by simp [get_difficulty_scorer, hreg, hUT, hTk],
      fun h => by simp [hTk] at h,
      fun _ => hattr hTk,
      fun h => by simp [hUT] at h⟩
  · exact ⟨{ ctor kwargs with tokenizer := some trainer.tokenizer },
      by simp [get_difficulty_scorer, hreg, hUT, hTk, hfast],
      fun _ => rfl,
      fun h => by simp [hTk] at h,
      fun h => by simp [hUT] at h⟩
  · exact ⟨{ ctor kwargs with trainer := some trainer },
      by simp [get_difficulty_scorer, hreg, hUT, hTk],
      fun h => by simp [hTk] at h,
      fun _ => hattr hTk,
      fun _ => rfl⟩
  · exact ⟨{ { ctor kwargs with trainer := some trainer } with
               tokenizer := some trainer.tokenizer },
      by simp [get_difficulty_scorer, hreg, hUT, hTk, hfast],
      fun _ => rfl,
      fun h => by simp [hTk] at h,
      fun _ => rfl⟩

/-- Claim C9, witness: the one-entry registry's scorer declares the
tokenizer capability and ends up with the trainer's tokenizer value 42
injected. -/
theorem claim_C9_witness :
    ∃ s, get_difficulty_scorer witnessRegistry "ngram_perplexity" 0
        witnessTrainer = .ok s ∧ s.tokenizer = some 42 := by
  obtain ⟨s, h1, h2, -, -⟩ :=
    claim_C9_scorer_injection witnessRegistry "ngram_perplexity"
      ngramScorerCtor 0 witnessTrainer rfl rfl (fun _ => rfl)
  exact ⟨s, h1, h2 rfl⟩

/-! ## Theorems: pseudo-perplexity estimator -/

/-- Reading entry `j < L` of a list built by mapping `f` over
`List.range L`. -/
theorem getD_range_map {α : Type} (L : ℕ) (f : ℕ → α) (j : ℕ) (d : α)
    (hj : j < L) : ((List.range L).map f).getD j d = f j := by
  simp [List.getD_eq_getElem?_getD, List.getElem?_map, List.getElem?_range hj]

/-- `loss.view(batch_size, seq_len)` undoes the flattening: regrouping a
concatenation of per-example blocks of length `L` recovers the blocks. -/
theorem viewRows_flatMap {α : Type} (L : ℕ) (f : α → List ℚ) :
    ∀ rows : List α, (∀ r ∈ rows, (f r).length = L) →
      viewRows rows.length L (rows.flatMap f) = rows.map f := by
  intro rows
  induction rows with
  | nil => intro _; rfl
  | cons a as ih =>
      intro h
      have ha : (f a).length = L := h a (by simp)
      have ht : (f a ++ as.flatMap f).take L = f a := by
        rw [← ha]; exact List.take_left _ _
      have hd : (f a ++ as.flatMap f).drop L = as.flatMap f := by
        rw [← ha]; exact List.drop_left _ _
      simp only [List.flatMap_cons, List.length_cons, viewRows, ht, hd,
        List.map_cons]
      rw [ih (fun r hr => h r (List.mem_cons_of_mem _ hr))]

/-- Claim C3, counterexample.  The claim says variant `i`'s label tensor
holds the original token id at position `i` and the ignore sentinel
everywhere else; but labels are kept wherever the masked input equals the
mask token id (inference.py line 63), which also happens at positions
where the original input already holds the mask token id.  With mask
token id 4, input row `[4, 7]`, no special tokens, variant 1's labels are
`[4, 7]`: position 0 is neither position `i = 1` nor ignored, so two
positions contribute. -/
theorem claim_C3_counterexample :
    variantLabels 4 [4, 7] [0, 0] 1 = [4, 7] ∧
    (variantLabels 4 [4, 7] [0, 0] 1).getD 0 0 ≠ IGNORE_INDEX := by
  refine ⟨by decide, by decide⟩

/-- Claim C3, amended.  In `compute_trainer_perplexity`, every position
whose `special_tokens_mask` entry is 1 has label `-100` in all variants
(special tokens are never scored); and provided the example's input holds
the mask token id at no position, variant `i`'s labels are the original
token id at position `i` (when not special) and the ignore sentinel
`-100` everywhere else — so at most one non-ignored position contributes
per variant. -/
theorem claim_C3_variant_labels (maskIdx : ℤ) (ids stm : List ℤ) (i : ℕ) :
    (∀ j, j < ids.length → stm.getD j 0 = 1 →
      (variantLabels maskIdx ids stm i).getD j 0 = IGNORE_INDEX) ∧
    ((∀ j, j < ids.length → ids.getD j 0 ≠ maskIdx) →
      (∀ j, j < ids.length → j ≠ i →
        (variantLabels maskIdx ids stm i).getD j 0 = IGNORE_INDEX) ∧
      (i < ids.length → stm.getD i 0 ≠ 1 →
        (variantLabels maskIdx ids stm i).getD i 0 = ids.getD i 0)) := by
  constructor
  · intro j hj hs
    unfold variantLabels
    rw [getD_range_map _ _ _ _ hj, if_pos hs]
  · intro hnomask
    constructor
    · intro j hj hji
      unfold variantLabels
      rw [getD_range_map _ _ _ _ hj]
      by_cases hs : stm.getD j 0 = 1
      · rw [if_pos hs]
      · have hm : (variantMaskedInput maskIdx ids i).getD j 0 =
            ids.getD j 0 := by
          unfold variantMaskedInput
          rw [getD_range_map _ _ _ _ hj]
          simp [hji]
        simp only [if_neg hs]
        unfold variantLabelsPre
        rw [getD_range_map _ _ _ _ hj, hm, if_pos (hnomask j hj)]
    · intro hi hsi
      have hm : (variantMaskedInput maskIdx ids i).getD i 0 = maskIdx := by
        unfold variantMaskedInput
        rw [getD_range_map _ _ _ _ hi]
        simp
      unfold variantLabels
      rw [getD_range_map _ _ _ _ hi]
      simp only [if_neg hsi]
      unfold variantLabelsPre
      rw [getD_range_map _ _ _ _ hi, hm]
      simp

/-- Claim C3, witness: input row `[1, 2]` (mask token id 4 absent),
special-tokens mask `[1, 0]`, variant 1: the special position 0 is
ignored and position 1 carries its original id 2. -/
theorem claim_C3_witness :
    (variantLabels 4 [1, 2] [1, 0] 1).getD 0 0 = IGNORE_INDEX ∧
    (variantLabels 4 [1, 2] [1, 0] 1).getD 1 0 = 2 := by
  obtain ⟨h1, h2⟩ := claim_C3_variant_labels 4 [1, 2] [1, 0] 1
  exact ⟨h1 0 (by decide) (by decide),
    (h2 (by decide)).2 (by decide) (by decide)⟩

/-- Claim C4: `compute_trainer_perplexity` returns exactly one value per
example of the batch (a list as long as `input_ids`), and the value for
example `(ids, stm)` is the exponential of the mean over the sequence
length `L` of the per-variant summed no-reduction losses — the flattened
per-variant sums reshaped to `(batch_size, L)`, averaged over `L` and
exponentiated. -/
theorem claim_C4_perplexity_per_example
    (tokenLoss : List ℤ → ℕ → ℤ → ℚ) (maskIdx : ℤ)
    (input_ids special_tokens_mask : List (List ℤ)) (L : ℕ)
    (hL : ∀ r ∈ input_ids, r.length = L) (hne : input_ids ≠ [])
    (hstm : special_tokens_mask.length = input_ids.length) (hL0 : 0 < L) :
    compute_trainer_perplexity tokenLoss (some maskIdx) input_ids
        special_tokens_mask =
      some ((input_ids.zip special_tokens_mask).map fun p =>
        Real.exp ((perExampleMeanLoss tokenLoss maskIdx L p.1 p.2 : ℚ) : ℝ)) ∧
    ((input_ids.zip special_tokens_mask).map fun p =>
        Real.exp ((perExampleMeanLoss tokenLoss maskIdx L p.1 p.2 : ℚ) : ℝ)).length
      = input_ids.length := by
  have hhead : (input_ids.headD []).length = L := by
    cases input_ids with
    | nil => exact absurd rfl hne
    | cons a as => exact hL a (by simp)
  have hziplen : (input_ids.zip special_tokens_mask).length =
      input_ids.length := by
    rw [List.length_zip, hstm, min_self]
  have hview :
      viewRows input_ids.length L
          (perVariantLossSums tokenLoss maskIdx input_ids
            special_tokens_mask L) =
        (input_ids.zip special_tokens_mask).map fun p =>
          (List.range L).map fun i =>
            (mlmComputeLossNone tokenLoss (variantMaskedInput maskIdx p.1 i)
              (variantLabels maskIdx p.1 p.2 i)).sum := by
    rw [← hziplen]
    exact viewRows_flatMap L _ (input_ids.zip special_tokens_mask)
      (fun r _ => by simp)
  constructor
  · unfold compute_trainer_perplexity
    simp only [hhead, hview, List.map_map]
    rfl
  · simp [hziplen]

/-- Claim C4, witness: a one-example batch `[[1, 2]]` with no special
tokens and constant per-token loss 1 yields one perplexity,
`exp(mean) = exp 1` (each of the two variants has exactly one scored
position of loss 1, so the mean loss is 1). -/
theorem claim_C4_witness :
    compute_trainer_perplexity (fun _ _ _ => (1 : ℚ)) (some 4) [[1, 2]]
        [[0, 0]] = some [Real.exp 1] := by
  have h := (claim_C4_perplexity_per_example (fun _ _ _ => (1 : ℚ)) 4
    [[1, 2]] [[0, 0]] 2 (by decide) (by decide) (by decide) (by decide)).1
  have hmean : perExampleMeanLoss (fun _ _ _ => (1 : ℚ)) 4 2 [1, 2] [0, 0]
      = 1 := by
    have hl0 : variantLabels 4 [1, 2] [0, 0] 0 = [1, IGNORE_INDEX] := by
      decide
    have hl1 : variantLabels 4 [1, 2] [0, 0] 1 = [IGNORE_INDEX, 2] := by
      decide
    unfold perExampleMeanLoss
    rw [List.range_succ, List.range_succ, List.range_zero]
    simp [hl0, hl1, mlmComputeLossNone, List.range_succ, IGNORE_INDEX]
  rw [h]
  simp [hmean]

/-- Claim C5: evaluation of the estimator at an all-special-token
example.  Every label of every variant is the ignore sentinel, so each
per-position no-reduction loss is zero (whatever the model outputs), each
variant's sum is zero, the mean loss is zero and the code silently
returns the ordinary perplexity value `exp 0 = 1` — it neither returns a
sentinel such as NaN nor fails. -/
theorem claim_C5_all_special_silent (tokenLoss : List ℤ → ℕ → ℤ → ℚ) :
    compute_trainer_perplexity tokenLoss (some 4) [[2, 3]] [[1, 1]] =
      some [(1 : ℝ)] := by
  have hl0 : variantLabels 4 [2, 3] [1, 1] 0 =
      [IGNORE_INDEX, IGNORE_INDEX] := by decide
  have hl1 : variantLabels 4 [2, 3] [1, 1] 1 =
      [IGNORE_INDEX, IGNORE_INDEX] := by decide
  have hzero : ∀ m : List ℤ,
      mlmComputeLossNone tokenLoss m [IGNORE_INDEX, IGNORE_INDEX] = [0, 0] := by
    intro m
    simp [mlmComputeLossNone, List.range_succ]
  have hsums : perVariantLossSums tokenLoss 4 [[2, 3]] [[1, 1]] 2 = [0, 0] := by
    unfold perVariantLossSums
    simp [List.range_succ, hl0, hl1, hzero]
  calc compute_trainer_perplexity tokenLoss (some 4) [[2, 3]] [[1, 1]]
      = some (((viewRows 1 2
            (perVariantLossSums tokenLoss 4 [[2, 3]] [[1, 1]] 2)).map
          fun r => r.sum / ((2 : ℕ) : ℚ)).map fun q : ℚ => Real.exp (q : ℝ)) :=
        rfl
    _ = some [(1 : ℝ)] := by
        rw [hsums]
        norm_num [viewRows, Real.exp_zero]

end BabyLM
